import Mathlib

/-!
Verification of the bitcore-explorers provider adapters (Blockcypher and
Smoogs) against their natural-language specification.

The JavaScript source is shallowly embedded: each adapter operation becomes
a pure Lean function from its inputs and the observed HTTP environment
(transport error, status code, response body) to an explicit outcome value.
Callback invocations become outcome constructors; synchronously thrown
precondition failures become distinguished outcome constructors; exceptions
escaping a callback are modelled as error outcomes as well.  Capabilities
that the specification declares out of scope (the bitcore-lib crypto codec,
the JSON parser of the runtime) are passed in as explicit function
parameters so that every definition stays executable.
-/

namespace BitcoreExplorers

/-- The two bitcoin networks the adapters distinguish. -/
inductive Network
  | livenet
  | testnet
deriving DecidableEq

/-- Library-wide default network used when the constructor receives neither a
url nor a network (bitcore-lib Networks.defaultNetwork, which is livenet). -/
def Networks.defaultNetwork : Network := .livenet

/-- A constructor argument slot in the JavaScript sources: absent (undefined),
a string, or an already-resolved Network value. -/
inductive NetRef
  | missing
  | str (s : String)
  | net (n : Network)
deriving DecidableEq

/-- Embedding of bitcore-lib Networks.get restricted to the inputs the
adapters feed it: a Network value resolves to itself, the strings livenet,
mainnet and testnet resolve to their networks, everything else (urls,
undefined) resolves to nothing. -/
def Networks.get : NetRef → Option Network
  | .missing => none
  | .net n => some n
  | .str s =>
    if s = "livenet" || s = "mainnet" then some .livenet
    else if s = "testnet" then some .testnet
    else none

/-- The string payload of a NetRef, when it is one. -/
def NetRef.asStr : NetRef → Option String
  | .str s => some s
  | _ => none

/-- Canonical Blockcypher base url derived from a network, as built in the
Blockcypher constructor (src/lib/blockcypher.js lines 32-34). -/
def blockcypherBaseUrl (n : Network) : String :=
  "https://api.blockcypher.com/v1/btc/" ++ (if n = .livenet then "main" else "test3")

/-- Blockcypher's documented canonical mainnet endpoint. -/
def blockcypherMainUrl : String := "https://api.blockcypher.com/v1/btc/main"

/-- Blockcypher's documented canonical testnet endpoint. -/
def blockcypherTestUrl : String := "https://api.blockcypher.com/v1/btc/test3"

/-- Canonical Smoogs base url derived from a network, as built in the Smoogs
constructor (src/lib/smoogs.js lines 29-31). -/
def smoogsBaseUrl (n : Network) : String :=
  "https://smoogs.io/api/" ++ (if n = .livenet then "v1" else "testing") ++ "/blockchain"

/-- Smoogs's documented canonical mainnet endpoint. -/
def smoogsMainUrl : String := "https://smoogs.io/api/v1/blockchain"

/-- Smoogs's documented canonical testnet endpoint. -/
def smoogsTestUrl : String := "https://smoogs.io/api/testing/blockchain"

/-- The state a Blockcypher adapter holds after construction. -/
structure Blockcypher where
  token : Option String
  url : Option String
  network : Network
deriving DecidableEq

/-- Body of the Blockcypher constructor after the missing-arguments default
has been applied: if the url argument names a known network, replace it by
the canonical base url for that network and adopt that network; otherwise
keep the url as given and resolve the network argument, falling back to the
default network (src/lib/blockcypher.js lines 30-40). -/
def Blockcypher.constructCore (token : Option String) (url network : NetRef) : Blockcypher :=
  match Networks.get url with
  | some n => { token := token, url := some (blockcypherBaseUrl n), network := n }
  | none =>
    { token := token
      url := url.asStr
      network := (Networks.get network).getD Networks.defaultNetwork }

/-- The Blockcypher constructor: with neither url nor network it restarts
itself on the default network (src/lib/blockcypher.js lines 27-29), otherwise
it runs the constructor body as given. -/
def Blockcypher.construct (token : Option String) (url network : NetRef) : Blockcypher :=
  if url = .missing ∧ network = .missing then
    Blockcypher.constructCore token (.net Networks.defaultNetwork) .missing
  else
    Blockcypher.constructCore token url network

/-- The state a Smoogs adapter holds after construction. -/
structure Smoogs where
  url : Option String
  network : Network
deriving DecidableEq

/-- Body of the Smoogs constructor after the missing-arguments default has
been applied (src/lib/smoogs.js lines 27-36). -/
def Smoogs.constructCore (url network : NetRef) : Smoogs :=
  match Networks.get url with
  | some n => { url := some (smoogsBaseUrl n), network := n }
  | none =>
    { url := url.asStr
      network := (Networks.get network).getD Networks.defaultNetwork }

/-- The Smoogs constructor: with neither url nor network it restarts itself
on the default network (src/lib/smoogs.js lines 24-26). -/
def Smoogs.construct (url network : NetRef) : Smoogs :=
  if url = .missing ∧ network = .missing then
    Smoogs.constructCore (.net Networks.defaultNetwork) .missing
  else
    Smoogs.constructCore url network

/-- A validated bitcoin address (the spec's opaque network-scoped
identifier, produced by the out-of-scope crypto codec). -/
structure Address where
  network : Network
  text : String
deriving DecidableEq

/-- An argument of getUnspentUtxos: either an already-validated Address
object or a raw string to be validated by the codec. -/
inductive AddrInput
  | valid (a : Address)
  | str (s : String)
deriving DecidableEq

/-- The failure values a getUnspentUtxos call can surface. -/
inductive UtxoErr
  | invalidArgument
  | errValue (e : Nat)
  | bodyErr (body : String)
  | thrownParseErr (body : String)
deriving DecidableEq

/-- Embedding of the per-element address coercion new Address(address): an
Address instance passes through, a string is handed to the codec's parser
and a parse failure throws InvalidArgument (src/lib/blockcypher.js lines
60-62, src/lib/smoogs.js lines 81-83; the parser itself is the out-of-scope
codec capability, passed in as a parameter). -/
def toAddress (parseAddr : String → Option Address) : AddrInput → Except UtxoErr Address
  | .valid a => .ok a
  | .str s =>
    match parseAddr s with
    | some a => .ok a
    | none => .error .invalidArgument

/-- Fail-fast effectful map: the sequential determinization of async.map's
fan-out (and of a throwing underscore map), which surfaces the first failure
and otherwise collects all results in order. -/
def asyncMapE {α β ε : Type} (f : α → Except ε β) : List α → Except ε (List β)
  | [] => .ok []
  | a :: as =>
    match f a with
    | .error e => .error e
    | .ok b =>
      match asyncMapE f as with
      | .error e => .error e
      | .ok bs => .ok (b :: bs)

/-- A raw unspent transaction reference as Blockcypher reports it (the
fields blockcypherToBitcoreOutputFormat reads). -/
structure TxRef where
  tx_hash : String
  tx_output_n : Int
  value : Int
  script : String
deriving DecidableEq

/-- The parsed shape of a Blockcypher address-info payload: each txref list
is either present as a list or absent/non-list. -/
structure AddressInfo where
  txrefs : Option (List TxRef)
  unconfirmed_txrefs : Option (List TxRef)
deriving DecidableEq

/-- Embedding of getMaybeArray: a non-list (absent) field becomes the empty
list (src/lib/blockcypher.js lines 74-76). -/
def getMaybeArray : Option (List TxRef) → List TxRef
  | some l => l
  | none => []

/-- The canonical unspent-output record the adapters normalize into. -/
structure UnspentOutput where
  txId : String
  outputIndex : Int
  satoshis : Int
  script : String
  address : String
deriving DecidableEq

/-- Embedding of blockcypherToBitcoreOutputFormat: field renaming plus
deriving the owning address from the locking script through the codec
capability (src/lib/blockcypher.js lines 78-86). -/
def blockcypherToBitcoreOutputFormat (scriptToAddr : String → String) (o : TxRef) :
    UnspentOutput :=
  { txId := o.tx_hash
    outputIndex := o.tx_output_n
    satoshis := o.value
    script := o.script
    address := scriptToAddr o.script }

/-- Embedding of processAddressInfoIntoOutputs: JSON.parse the raw body (a
parse failure throws a SyntaxError, modelled as the thrownParseErr outcome),
then concatenate the confirmed and unconfirmed reference lists and map them
into canonical outputs (src/lib/blockcypher.js lines 88-96).  No
deduplication of any kind is performed. -/
def processAddressInfoIntoOutputs (scriptToAddr : String → String)
    (parse : String → Option AddressInfo) (raw : String) :
    Except UtxoErr (List UnspentOutput) :=
  match parse raw with
  | none => .error (.thrownParseErr raw)
  | some info =>
    .ok ((getMaybeArray info.txrefs ++ getMaybeArray info.unconfirmed_txrefs).map
      (blockcypherToBitcoreOutputFormat scriptToAddr))

/-- Embedding of the response handler of Blockcypher.prototype._getAddress:
a transport error or non-200 status is called back as the error (the raw
body when there is no transport error), otherwise the body is normalized
(src/lib/blockcypher.js lines 98-106). -/
def Blockcypher.getAddressOp (scriptToAddr : String → String)
    (parse : String → Option AddressInfo) (err : Option Nat) (status : Nat)
    (body : String) : Except UtxoErr (List UnspentOutput) :=
  match err with
  | some e => .error (.errValue e)
  | none =>
    if status ≠ 200 then .error (.bodyErr body)
    else processAddressInfoIntoOutputs scriptToAddr parse body

/-- Embedding of Blockcypher.prototype.getUnspentUtxos: coerce every input
to an Address (the first coercion failure throws), fan the per-address fetch
out over the list fail-fast, and flatten the per-address result lists
(src/lib/blockcypher.js lines 54-72).  The per-address fetch (the HTTP
environment of _getAddress) is a parameter. -/
def Blockcypher.getUnspentUtxos (parseAddr : String → Option Address)
    (fetch : Address → Except UtxoErr (List UnspentOutput))
    (inputs : List AddrInput) : Except UtxoErr (List UnspentOutput) :=
  match asyncMapE (toAddress parseAddr) inputs with
  | .error e => .error e
  | .ok addrs =>
    match asyncMapE fetch addrs with
    | .error e => .error e
    | .ok results => .ok results.flatten

/-- The deduplication key the spec's uniqueness invariant is stated over. -/
def outputKey (u : UnspentOutput) : String × Int := (u.txId, u.outputIndex)

/-- The corresponding key of a raw provider reference. -/
def refKey (r : TxRef) : String × Int := (r.tx_hash, r.tx_output_n)

/-- The spec's uniqueness invariant on a result set: no two records share a
(transactionId, outputIndex) pair. -/
def keyUnique (l : List UnspentOutput) : Prop := (l.map outputKey).Nodup

instance (l : List UnspentOutput) : Decidable (keyUnique l) := by
  unfold keyUnique; infer_instance

/-- Hex-digit test of one character, as the codec's hex regex class. -/
def isHexDigit (c : Char) : Bool :=
  (c ≥ '0' && c ≤ '9') || (c ≥ 'a' && c ≤ 'f') || (c ≥ 'A' && c ≤ 'F')

/-- Embedding of the codec capability JSUtil.isHexa used by both broadcast
preconditions: a non-empty string made only of hex digits (non-strings are
handled by the TxInput shape below). -/
def isHexa (s : String) : Bool :=
  s.length > 0 && s.toList.all isHexDigit

/-- A transaction handle: an already-built transaction whose serialized hex
form is what broadcast sends (serialization is the out-of-scope codec). -/
structure Transaction where
  hex : String
deriving DecidableEq

/-- An argument of broadcast: a string, a transaction handle, or any other
runtime value (number, object, null, ...), which is neither hex nor a
transaction. -/
inductive TxInput
  | str (s : String)
  | tx (t : Transaction)
  | other
deriving DecidableEq

/-- The validation-phase result of a broadcast call: either the precondition
throws InvalidArgument with no network call made, or a POST request with the
serialized transaction is issued. -/
inductive BroadcastStep
  | invalidArg
  | request (path : String) (txHex : String)
deriving DecidableEq

/-- The spec-side predicate of the broadcast precondition: the input is
either a valid hex string or a valid transaction handle. -/
def validBroadcastInput : TxInput → Bool
  | .str s => isHexa s
  | .tx _ => true
  | .other => false

/-- The path Blockcypher.broadcast posts to, with the optional auth token
query (src/lib/blockcypher.js lines 126-127). -/
def blockcypherPushPath (token : Option String) : String :=
  "/txs/push" ++ (match token with | some t => "?token=" ++ t | none => "")

/-- Embedding of the synchronous phase of Blockcypher.prototype.broadcast:
checkArgument(isHexa or instanceof Transaction) throws InvalidArgument
before any request; a transaction handle is serialized; then the POST
request is issued (src/lib/blockcypher.js lines 119-128). -/
def Blockcypher.broadcastCheck (token : Option String) : TxInput → BroadcastStep
  | .str s => if isHexa s then .request (blockcypherPushPath token) s else .invalidArg
  | .tx t => .request (blockcypherPushPath token) t.hex
  | .other => .invalidArg

/-- Embedding of the synchronous phase of Smoogs.prototype.broadcast, same
precondition, posting to /broadcast (src/lib/smoogs.js lines 116-124). -/
def Smoogs.broadcastCheck : TxInput → BroadcastStep
  | .str s => if isHexa s then .request "/broadcast" s else .invalidArg
  | .tx t => .request "/broadcast" t.hex
  | .other => .invalidArg

/-- Does the second string occur inside the first, on the underlying
character lists: test at each position of the haystack. -/
def startsWithChars : List Char → List Char → Bool
  | [], _ => true
  | _ :: _, [] => false
  | p :: ps, c :: cs => p == c && startsWithChars ps cs

/-- Occurrence test used to embed indexOf(needle) > -1. -/
def occursInChars (pat : List Char) : List Char → Bool
  | [] => startsWithChars pat []
  | c :: cs => startsWithChars pat (c :: cs) || occursInChars pat cs

/-- Embedding of body.indexOf(pat) > -1: pat occurs somewhere in s. -/
def containsSubstr (s pat : String) : Bool :=
  occursInChars pat.toList s.toList

/-- The parsed JSON body of a Blockcypher broadcast response: an optional
error text and the optional hash of the accepted transaction. -/
structure BroadcastBody where
  error : Option String
  txHash : Option String
deriving DecidableEq

/-- The outcomes of a full Blockcypher broadcast call.  crashed marks the
TypeError the handler raises when it reads body.error.indexOf on a response
without an error field. -/
inductive BroadcastOutcome
  | invalidArg
  | errValue (e : Nat)
  | alreadyBroadcasted (msg : String)
  | bodyErr (body : BroadcastBody)
  | crashed
  | ok (txHash : Option String)
deriving DecidableEq

/-- Embedding of Blockcypher.prototype.broadcast: validation first, then the
response handler: a transport error is called back as is; a non-201 status
without transport error is reclassified as AlreadyBroadcastedError when the
body's error text contains the phrase already exists, and otherwise called
back with the raw body; a 201 response succeeds with the reported hash
(src/lib/blockcypher.js lines 119-138). -/
def Blockcypher.broadcastOp (token : Option String) (inp : TxInput)
    (err : Option Nat) (status : Nat) (body : BroadcastBody) : BroadcastOutcome :=
  match Blockcypher.broadcastCheck token inp with
  | .invalidArg => .invalidArg
  | .request _ _ =>
    match err with
    | some e => .errValue e
    | none =>
      if status ≠ 201 then
        match body.error with
        | none => .crashed
        | some msg =>
          if containsSubstr msg "already exists" then .alreadyBroadcasted msg
          else .bodyErr body
      else .ok body.txHash

/-- The canonical fee-estimation record (models/feeestimation). -/
structure FeeEstimation where
  withinBlocks : Int
  feePerKb : Int
deriving DecidableEq

/-- The three fee fields of a parsed Blockcypher chain-info payload. -/
structure BlockcypherChainInfo where
  high_fee_per_kb : Int
  medium_fee_per_kb : Int
  low_fee_per_kb : Int
deriving DecidableEq

/-- The three tiers FeeEstimation.fromBlockcypher builds. -/
structure FeeTiers where
  high : FeeEstimation
  medium : FeeEstimation
  low : FeeEstimation
deriving DecidableEq

/-- Embedding of FeeEstimation.fromBlockcypher on a parsed payload: the high
tier targets 0 blocks, the medium tier 3 blocks, the low tier 7 blocks, each
with its reported fee rate (models/feeestimation fromBlockcypher). -/
def FeeEstimation.fromBlockcypher (info : BlockcypherChainInfo) : FeeTiers :=
  { high := { withinBlocks := 0, feePerKb := info.high_fee_per_kb }
    medium := { withinBlocks := 3, feePerKb := info.medium_fee_per_kb }
    low := { withinBlocks := 7, feePerKb := info.low_fee_per_kb } }

/-- The outcomes of a Blockcypher feeEstimation call.  malformed is the
SyntaxError the handler passes to the callback when the body fails to parse;
bodyErr is the raw body passed back on a clean non-200 status. -/
inductive FeeOutcome
  | invalidArg
  | errValue (e : Nat)
  | bodyErr (body : String)
  | malformed (body : String)
  | ok (est : FeeEstimation)
deriving DecidableEq

/-- Embedding of Blockcypher.prototype.feeEstimation: the precondition
rejects a negative target; a transport error is called back as is; a non-200
status is called back with the raw body; otherwise the body is parsed (a
parse failure is a SyntaxError, caught and called back) and the tier is
picked by target: below 3 the high tier, from 3 below 7 the medium tier,
from 7 on the low tier (src/lib/blockcypher.js lines 151-177). -/
def Blockcypher.feeEstimationOp (parseInfo : String → Option BlockcypherChainInfo)
    (withinBlocks : Int) (err : Option Nat) (status : Nat) (body : String) :
    FeeOutcome :=
  if withinBlocks < 0 then .invalidArg
  else
    match err with
    | some e => .errValue e
    | none =>
      if status ≠ 200 then .bodyErr body
      else
        match parseInfo body with
        | none => .malformed body
        | some info =>
          let tiers := FeeEstimation.fromBlockcypher info
          .ok (if withinBlocks < 3 then tiers.high
               else if withinBlocks < 7 then tiers.medium
               else tiers.low)

/-- The outcomes of a Smoogs feeEstimation call.  undefinedCallback marks
the handler invoking its callback with the hoisted, not-yet-assigned
feePerKb variable, i.e. with undefined: a falsy error value carrying neither
status nor body, indistinguishable from success for a caller that tests the
error argument. -/
inductive SmoogsFeeOutcome
  | invalidArg
  | errValue (e : Nat)
  | undefinedCallback
  | ok (withinBlocks : Int) (feePerKb : Option Int)
deriving DecidableEq

/-- Embedding of Smoogs.prototype.feeEstimation: the precondition rejects a
negative target; a transport error is called back as is; a non-200 status
without transport error executes callback(err || feePerKb) where feePerKb is
the var declared only further down, so the callback receives undefined;
otherwise the call succeeds with the body's feePerKb field, which may be
absent (src/lib/smoogs.js lines 144-168). -/
def Smoogs.feeEstimationOp (withinBlocks : Int) (err : Option Nat) (status : Nat)
    (bodyFeePerKb : Option Int) : SmoogsFeeOutcome :=
  if withinBlocks < 0 then .invalidArg
  else
    match err with
    | some e => .errValue e
    | none =>
      if status ≠ 200 then .undefinedCallback
      else .ok withinBlocks bodyFeePerKb

/-- The outcomes of a Smoogs getTransaction call.  resErr is the handler
calling back with the response object (which carries the status); In JS the
decoder new Transaction(body) may throw out of the callback, which
decodeThrown records. -/
inductive GetTxOutcome
  | invalidArg
  | errValue (e : Nat)
  | resErr (status : Nat)
  | decodeThrown
  | ok (t : Transaction)
deriving DecidableEq

/-- Embedding of Smoogs.prototype.getTransaction: the precondition requires
the id to be a string of length exactly 64 (nothing else is checked); a
transport error is called back as is; a non-200 status is called back with
the response; otherwise the body is decoded by the codec capability
(src/lib/smoogs.js lines 50-63). -/
def Smoogs.getTransactionOp (decodeTx : String → Except Unit Transaction)
    (txid : String) (err : Option Nat) (status : Nat) (body : String) :
    GetTxOutcome :=
  if txid.length ≠ 64 then .invalidArg
  else
    match err with
    | some e => .errValue e
    | none =>
      if status ≠ 200 then .resErr status
      else
        match decodeTx body with
        | .error _ => .decodeThrown
        | .ok t => .ok t

/-!  Concrete instantiations of the capability parameters, used to evaluate
the embedded operations on specific inputs. -/

/-- An address parser that accepts nothing. -/
def noParseAddr : String → Option Address := fun _ => none

/-- A per-address fetch that always succeeds with no outputs. -/
def emptyFetch : Address → Except UtxoErr (List UnspentOutput) := fun _ => .ok []

/-- The identity script-to-address instantiation of the codec capability. -/
def idScriptAddr : String → String := fun s => s

/-- A raw reference that will appear both as confirmed and as unconfirmed. -/
def refDup : TxRef := { tx_hash := "aa", tx_output_n := 0, value := 5, script := "51" }

/-- An address-info payload listing the same reference twice. -/
def infoDup : AddressInfo := { txrefs := some [refDup], unconfirmed_txrefs := some [refDup] }

/-- A JSON parser whose every answer is the duplicated payload. -/
def parseDup : String → Option AddressInfo := fun _ => some infoDup

/-- The canonical output the duplicated reference normalizes to. -/
def outDup : UnspentOutput := blockcypherToBitcoreOutputFormat idScriptAddr refDup

/-- A livenet address. -/
def addrA : Address := { network := .livenet, text := "addrA" }

/-- A livenet address whose fetch will fail. -/
def addrBad : Address := { network := .livenet, text := "bad" }

/-- A testnet address. -/
def addrTest : Address := { network := .testnet, text := "tb1" }

/-- A fetch backed by a Blockcypher 200 response with the duplicated body. -/
def fetchDup : Address → Except UtxoErr (List UnspentOutput) :=
  fun _ => Blockcypher.getAddressOp idScriptAddr parseDup none 200 "raw"

/-- A fetch that fails on the address named bad and succeeds elsewhere. -/
def fetchFailBad : Address → Except UtxoErr (List UnspentOutput) :=
  fun a => if a.text = "bad" then .error (.errValue 7) else .ok []

/-- A transaction decoder that wraps the body as the transaction hex. -/
def decodeOkTx : String → Except Unit Transaction := fun s => .ok { hex := s }

/-- Sixty-four z characters: a 64-character string that is not hex. -/
def zzz64 : String := String.mk (List.replicate 64 'z')

/-- A chain-info parser that fails on every body. -/
def parseNoInfo : String → Option BlockcypherChainInfo := fun _ => none

/-- A concrete fee payload. -/
def infoFees : BlockcypherChainInfo :=
  { high_fee_per_kb := 900, medium_fee_per_kb := 500, low_fee_per_kb := 100 }

/-- A chain-info parser whose every answer is the concrete fee payload. -/
def parseFees : String → Option BlockcypherChainInfo := fun _ => some infoFees

/-!  Shared helper lemmas about the fail-fast map. -/

/-- If some element of the list fails, the fail-fast map fails, and the
error it surfaces is the error of some element of the list. -/
theorem asyncMapE_error_of_mem {α β ε : Type} (f : α → Except ε β) (l : List α)
    (a : α) (e : ε) (ha : a ∈ l) (hf : f a = .error e) :
    ∃ e2, asyncMapE f l = .error e2 ∧ ∃ a2, a2 ∈ l ∧ f a2 = .error e2 := by
  induction l with
  | nil => cases ha
  | cons x xs ih =>
    cases hx : f x with
    | error e2 =>
      exact ⟨e2, by simp [asyncMapE, hx], x, List.mem_cons_self x xs, hx⟩
    | ok b =>
      have ha2 : a ∈ xs := by
        rcases List.mem_cons.mp ha with h | h
        · subst h; rw [hx] at hf; cases hf
        · exact h
      obtain ⟨e2, h1, a2, h2, h3⟩ := ih ha2
      exact ⟨e2, by simp [asyncMapE, hx, h1], a2, List.mem_cons_of_mem x h2, h3⟩

/-- If every error the mapped function can produce is the constant c and
some element fails, the fail-fast map fails with c. -/
theorem asyncMapE_error_const {α β ε : Type} (f : α → Except ε β) (c : ε)
    (hconst : ∀ x e, f x = .error e → e = c) (l : List α) (a : α) (ha : a ∈ l)
    (e : ε) (hf : f a = .error e) : asyncMapE f l = .error c := by
  induction l with
  | nil => cases ha
  | cons x xs ih =>
    cases hx : f x with
    | error e2 =>
      have h := hconst x e2 hx
      subst h
      simp [asyncMapE, hx]
    | ok b =>
      have ha2 : a ∈ xs := by
        rcases List.mem_cons.mp ha with h | h
        · subst h; rw [hx] at hf; cases hf
        · exact h
      simp [asyncMapE, hx, ih ha2]

/-!  Claim theorems. -/

/-- C1: a Blockcypher broadcast whose provider response has a non-success
status but whose body's error text contains the phrase already exists is
called back with the distinguished AlreadyBroadcastedError carrying that
text, and that outcome is distinct from the generic raw-body and transport
error outcomes. -/
theorem broadcast_alreadyExists_classified (token : Option String) (t : Transaction)
    (status : Nat) (msg : String) (txHash : Option String)
    (hs : status ≠ 201) (hmsg : containsSubstr msg "already exists" = true) :
    Blockcypher.broadcastOp token (.tx t) none status { error := some msg, txHash := txHash }
      = .alreadyBroadcasted msg ∧
    (∀ b, BroadcastOutcome.alreadyBroadcasted msg ≠ .bodyErr b) ∧
    (∀ e, BroadcastOutcome.alreadyBroadcasted msg ≠ .errValue e) := by
  refine ⟨?_, ?_, ?_⟩
  · simp [Blockcypher.broadcastOp, Blockcypher.broadcastCheck, hs, hmsg]
  · intro b h
    cases h
  · intro e h
    cases h

/-- Witness for C1 at a concrete duplicate-broadcast response. -/
theorem broadcast_alreadyExists_witness :
    Blockcypher.broadcastOp none (.tx { hex := "00" }) none 409
      { error := some "Transaction already exists.", txHash := none }
      = .alreadyBroadcasted "Transaction already exists." ∧
    (∀ b, BroadcastOutcome.alreadyBroadcasted "Transaction already exists." ≠ .bodyErr b) ∧
    (∀ e, BroadcastOutcome.alreadyBroadcasted "Transaction already exists." ≠ .errValue e) :=
  broadcast_alreadyExists_classified none { hex := "00" } 409 "Transaction already exists." none
    (by decide) (by decide)

/-- C2: with a successful, parsed Blockcypher fee response and non-negative
target, a target below 3 selects the high (fastest) tier, a target from 3
below 7 the medium tier, and a target from 7 on the low (slowest) tier; the
three tiers carry confirmation targets 0, 3 and 7 respectively. -/
theorem feeEstimation_tier_cutoffs (parseInfo : String → Option BlockcypherChainInfo)
    (w : Int) (body : String) (info : BlockcypherChainInfo)
    (hw : 0 ≤ w) (hp : parseInfo body = some info) :
    (w < 3 → Blockcypher.feeEstimationOp parseInfo w none 200 body
        = .ok (FeeEstimation.fromBlockcypher info).high) ∧
    (3 ≤ w → w < 7 → Blockcypher.feeEstimationOp parseInfo w none 200 body
        = .ok (FeeEstimation.fromBlockcypher info).medium) ∧
    (7 ≤ w → Blockcypher.feeEstimationOp parseInfo w none 200 body
        = .ok (FeeEstimation.fromBlockcypher info).low) ∧
    (FeeEstimation.fromBlockcypher info).high.withinBlocks = 0 ∧
    (FeeEstimation.fromBlockcypher info).medium.withinBlocks = 3 ∧
    (FeeEstimation.fromBlockcypher info).low.withinBlocks = 7 := by
  have h0 : ¬ w < 0 := by omega
  refine ⟨fun h3 => ?_, fun h3 h7 => ?_, fun h7 => ?_, rfl, rfl, rfl⟩
  · simp [Blockcypher.feeEstimationOp, h0, hp, h3]
  · have hn3 : ¬ w < 3 := by omega
    simp [Blockcypher.feeEstimationOp, h0, hp, hn3, h7]
  · have hn3 : ¬ w < 3 := by omega
    have hn7 : ¬ w < 7 := by omega
    simp [Blockcypher.feeEstimationOp, h0, hp, hn3, hn7]

/-- Witness for C2 at the boundary targets 2, 3, 6 and 7. -/
theorem feeEstimation_tier_witness :
    Blockcypher.feeEstimationOp parseFees 2 none 200 "b"
      = .ok (FeeEstimation.fromBlockcypher infoFees).high ∧
    Blockcypher.feeEstimationOp parseFees 3 none 200 "b"
      = .ok (FeeEstimation.fromBlockcypher infoFees).medium ∧
    Blockcypher.feeEstimationOp parseFees 6 none 200 "b"
      = .ok (FeeEstimation.fromBlockcypher infoFees).medium ∧
    Blockcypher.feeEstimationOp parseFees 7 none 200 "b"
      = .ok (FeeEstimation.fromBlockcypher infoFees).low :=
  ⟨(feeEstimation_tier_cutoffs parseFees 2 "b" infoFees (by decide) rfl).1 (by decide),
   (feeEstimation_tier_cutoffs parseFees 3 "b" infoFees (by decide) rfl).2.1 (by decide) (by decide),
   (feeEstimation_tier_cutoffs parseFees 6 "b" infoFees (by decide) rfl).2.1 (by decide) (by decide),
   (feeEstimation_tier_cutoffs parseFees 7 "b" infoFees (by decide) rfl).2.2.1 (by decide)⟩

/-- C3 counterexample: a single-address getUnspentUtxos whose provider
response lists the same (hash, index) reference both as confirmed and as
unconfirmed yields that record twice, so the result set violates the claimed
(transactionId, outputIndex) uniqueness invariant: nothing is collapsed. -/
theorem getUnspentUtxos_dup_counterexample :
    Blockcypher.getUnspentUtxos noParseAddr fetchDup [.valid addrA] = .ok [outDup, outDup] ∧
    ¬ keyUnique [outDup, outDup] := by
  exact ⟨rfl, by decide⟩

/-- C3 amended: the normalized result is the concatenation of the confirmed
and the unconfirmed reference lists; every (transactionId, outputIndex) key
occurs exactly as often as in the two raw lists combined, so the union does
contain both kinds of references but duplicates are preserved with their
multiplicity, not collapsed to the first observed record. -/
theorem processOutputs_concat_counts (scriptToAddr : String → String)
    (parse : String → Option AddressInfo) (raw : String) (info : AddressInfo)
    (hp : parse raw = some info) :
    ∃ l, processAddressInfoIntoOutputs scriptToAddr parse raw = .ok l ∧
      ∀ k, (l.map outputKey).count k
          = ((getMaybeArray info.txrefs).map refKey).count k
            + ((getMaybeArray info.unconfirmed_txrefs).map refKey).count k := by
  refine ⟨(getMaybeArray info.txrefs ++ getMaybeArray info.unconfirmed_txrefs).map
      (blockcypherToBitcoreOutputFormat scriptToAddr), ?_, fun k => ?_⟩
  · simp [processAddressInfoIntoOutputs, hp]
  · have hcomp : outputKey ∘ blockcypherToBitcoreOutputFormat scriptToAddr = refKey := by
      funext r
      rfl
    rw [List.map_map, hcomp, List.map_append, List.count_append]

/-- Witness for the amended C3 on the duplicated payload. -/
theorem processOutputs_concat_counts_witness :
    ∃ l, processAddressInfoIntoOutputs idScriptAddr parseDup "x" = .ok l ∧
      ∀ k, (l.map outputKey).count k
          = ((getMaybeArray infoDup.txrefs).map refKey).count k
            + ((getMaybeArray infoDup.unconfirmed_txrefs).map refKey).count k :=
  processOutputs_concat_counts idScriptAddr parseDup "x" infoDup rfl

/-- C4: when every input coerces to an address and the per-address fetch of
at least one of those addresses fails, the whole getUnspentUtxos call fails,
surfacing the failure of one of the addresses, and no output list (partial
or otherwise) is returned. -/
theorem getUnspentUtxos_failfast (parseAddr : String → Option Address)
    (fetch : Address → Except UtxoErr (List UnspentOutput))
    (inputs : List AddrInput) (addrs : List Address) (a : Address) (e : UtxoErr)
    (haddrs : asyncMapE (toAddress parseAddr) inputs = .ok addrs)
    (hmem : a ∈ addrs) (hf : fetch a = .error e) :
    ∃ e2, Blockcypher.getUnspentUtxos parseAddr fetch inputs = .error e2 ∧
      ∃ a2, a2 ∈ addrs ∧ fetch a2 = .error e2 := by
  obtain ⟨e2, h1, hx⟩ := asyncMapE_error_of_mem fetch addrs a e hmem hf
  exact ⟨e2, by simp [Blockcypher.getUnspentUtxos, haddrs, h1], hx⟩

/-- Witness for C4: two addresses, the second of which fails to fetch. -/
theorem getUnspentUtxos_failfast_witness :
    ∃ e2, Blockcypher.getUnspentUtxos noParseAddr fetchFailBad [.valid addrA, .valid addrBad]
        = .error e2 ∧
      ∃ a2, a2 ∈ [addrA, addrBad] ∧ fetchFailBad a2 = .error e2 :=
  getUnspentUtxos_failfast noParseAddr fetchFailBad [.valid addrA, .valid addrBad]
    [addrA, addrBad] addrBad (.errValue 7) rfl (by decide) rfl

/-- C5 (code bug evaluation): the Smoogs feeEstimation handler, given a
provider response with a non-2xx status and no transport error, invokes its
callback with the hoisted, not-yet-assigned feePerKb variable, i.e. with
undefined: a falsy value carrying neither the status nor the body, so the
failure is swallowed instead of being surfaced as a classified error. -/
theorem smoogsFee_non2xx_swallowed :
    Smoogs.feeEstimationOp 1 none 500 (some 1000) = .undefinedCallback := rfl

/-- C6: a broadcast input that is neither a valid hex string nor a
transaction handle makes both adapters throw InvalidArgument in the
validation phase, so no request (hence no network call) is ever issued. -/
theorem broadcast_invalid_input_rejected (token : Option String) (inp : TxInput)
    (h : validBroadcastInput inp = false) :
    Blockcypher.broadcastCheck token inp = .invalidArg ∧
    Smoogs.broadcastCheck inp = .invalidArg := by
  cases inp with
  | str s =>
    simp [validBroadcastInput] at h
    simp [Blockcypher.broadcastCheck, Smoogs.broadcastCheck, h]
  | tx t => simp [validBroadcastInput] at h
  | other => exact ⟨rfl, rfl⟩

/-- Witness for C6 on a non-hex string input. -/
theorem broadcast_invalid_input_witness :
    Blockcypher.broadcastCheck none (.str "xyz") = .invalidArg ∧
    Smoogs.broadcastCheck (.str "xyz") = .invalidArg :=
  broadcast_invalid_input_rejected none (.str "xyz") (by decide)

/-- C7 counterexample: getUnspentUtxos on the empty address list succeeds
with the empty output list instead of failing with InvalidArgument. -/
theorem getUnspentUtxos_empty_counterexample :
    Blockcypher.getUnspentUtxos noParseAddr emptyFetch [] = .ok [] ∧
    Blockcypher.getUnspentUtxos noParseAddr emptyFetch [] ≠ .error .invalidArgument := by
  refine ⟨rfl, ?_⟩
  intro h
  rw [show Blockcypher.getUnspentUtxos noParseAddr emptyFetch [] = .ok [] from rfl] at h
  cases h

/-- C7 amended: the empty address list is accepted and yields the empty
result; an address's network is never checked, so a validated address of any
network is fetched; InvalidArgument arises exactly when some input string
fails address validation altogether. -/
theorem getUnspentUtxos_empty_and_badAddr (parseAddr : String → Option Address)
    (fetch : Address → Except UtxoErr (List UnspentOutput)) :
    Blockcypher.getUnspentUtxos parseAddr fetch [] = .ok [] ∧
    (∀ inputs s, AddrInput.str s ∈ inputs → parseAddr s = none →
      Blockcypher.getUnspentUtxos parseAddr fetch inputs = .error .invalidArgument) ∧
    (∀ a outs, fetch a = .ok outs →
      Blockcypher.getUnspentUtxos parseAddr fetch [.valid a] = .ok outs) := by
  refine ⟨rfl, ?_, ?_⟩
  · intro inputs s hmem hp
    have hconst : ∀ x e, toAddress parseAddr x = .error e → e = .invalidArgument := by
      intro x e hx
      cases x with
      | valid a => simp [toAddress] at hx
      | str s2 =>
        cases hps : parseAddr s2 with
        | none =>
          simp [toAddress, hps] at hx
          exact hx.symm
        | some a => simp [toAddress, hps] at hx
    have herr : asyncMapE (toAddress parseAddr) inputs = .error .invalidArgument :=
      asyncMapE_error_const (toAddress parseAddr) .invalidArgument hconst inputs
        (.str s) hmem .invalidArgument (by simp [toAddress, hp])
    simp [Blockcypher.getUnspentUtxos, herr]
  · intro a outs hfetch
    simp [Blockcypher.getUnspentUtxos, asyncMapE, toAddress, hfetch]

/-- Witness for the amended C7: empty list accepted, unparsable string
rejected, testnet address fetched without any network check. -/
theorem getUnspentUtxos_amended_witness :
    Blockcypher.getUnspentUtxos noParseAddr emptyFetch [] = .ok [] ∧
    Blockcypher.getUnspentUtxos noParseAddr emptyFetch [.str "zz"] = .error .invalidArgument ∧
    Blockcypher.getUnspentUtxos noParseAddr emptyFetch [.valid addrTest] = .ok [] :=
  ⟨(getUnspentUtxos_empty_and_badAddr noParseAddr emptyFetch).1,
   (getUnspentUtxos_empty_and_badAddr noParseAddr emptyFetch).2.1 [.str "zz"] "zz"
     (List.Mem.head _) rfl,
   (getUnspentUtxos_empty_and_badAddr noParseAddr emptyFetch).2.2 addrTest [] rfl⟩

/-- C8 counterexample: a transaction id of 64 non-hex characters is not a
64-character hex hash, yet getTransaction accepts it without InvalidArgument
and proceeds to the network call, succeeding on a 200 response. -/
theorem getTransaction_nonhex_counterexample :
    isHexa zzz64 = false ∧
    Smoogs.getTransactionOp decodeOkTx zzz64 none 200 "00" = .ok { hex := "00" } ∧
    Smoogs.getTransactionOp decodeOkTx zzz64 none 200 "00" ≠ .invalidArg := by
  have h2 : Smoogs.getTransactionOp decodeOkTx zzz64 none 200 "00" = .ok { hex := "00" } := rfl
  refine ⟨by decide, h2, ?_⟩
  intro h
  rw [h2] at h
  cases h

/-- C8 amended: the precondition of Smoogs getTransaction checks only that
the id is a string of exactly 64 characters: any other length fails with
InvalidArgument and every 64-character string, hex or not, passes
validation. -/
theorem getTransaction_length_check (decodeTx : String → Except Unit Transaction)
    (txid : String) (err : Option Nat) (status : Nat) (body : String) :
    (txid.length ≠ 64 → Smoogs.getTransactionOp decodeTx txid err status body = .invalidArg) ∧
    (txid.length = 64 → Smoogs.getTransactionOp decodeTx txid err status body ≠ .invalidArg) := by
  constructor
  · intro h
    simp [Smoogs.getTransactionOp, h]
  · intro h
    unfold Smoogs.getTransactionOp
    rw [if_neg (by simp [h])]
    cases err with
    | some e => simp
    | none =>
      by_cases hs : status = 200
      · subst hs
        simp only [ne_eq, not_true_eq_false, if_false, reduceIte]
        cases hdec : decodeTx body with
        | error u => simp [hdec]
        | ok t => simp [hdec]
      · simp [hs]

/-- Witness for the amended C8: a 2-character id is rejected, the
64-character non-hex id is not. -/
theorem getTransaction_length_witness :
    Smoogs.getTransactionOp decodeOkTx "ab" none 200 "00" = .invalidArg ∧
    Smoogs.getTransactionOp decodeOkTx zzz64 none 404 "00" ≠ .invalidArg :=
  ⟨(getTransaction_length_check decodeOkTx "ab" none 200 "00").1 (by decide),
   (getTransaction_length_check decodeOkTx zzz64 none 404 "00").2 (by decide)⟩

/-- C9: in Blockcypher feeEstimation, an unparsable body on a 200 response
is surfaced as the malformed (SyntaxError) outcome carrying the offending
body, a clean non-200 status is surfaced as the raw-body provider-error
outcome, and the two outcomes are distinct for all payloads. -/
theorem feeEstimation_malformed_distinct (parseInfo : String → Option BlockcypherChainInfo)
    (w : Int) (body body2 : String) (status : Nat)
    (hw : 0 ≤ w) (hp : parseInfo body = none) (hs : status ≠ 200) :
    Blockcypher.feeEstimationOp parseInfo w none 200 body = .malformed body ∧
    Blockcypher.feeEstimationOp parseInfo w none status body2 = .bodyErr body2 ∧
    ∀ b1 b2, FeeOutcome.malformed b1 ≠ FeeOutcome.bodyErr b2 := by
  have h0 : ¬ w < 0 := by omega
  refine ⟨?_, ?_, ?_⟩
  · simp [Blockcypher.feeEstimationOp, h0, hp]
  · simp [Blockcypher.feeEstimationOp, h0, hs]
  · intro b1 b2 h
    cases h

/-- Witness for C9 at a concrete unparsable body and a concrete 500. -/
theorem feeEstimation_malformed_witness :
    Blockcypher.feeEstimationOp parseNoInfo 0 none 200 "junk" = .malformed "junk" ∧
    Blockcypher.feeEstimationOp parseNoInfo 0 none 500 "oops" = .bodyErr "oops" ∧
    ∀ b1 b2, FeeOutcome.malformed b1 ≠ FeeOutcome.bodyErr b2 :=
  feeEstimation_malformed_distinct parseNoInfo 0 "junk" "oops" 500
    (by decide) rfl (by decide)

/-- C10: for each provider and each network, constructing the adapter from
the bare network identifier yields the same effective base url as
constructing it with the provider's documented canonical url for that
network, and that url is exactly the canonical one. -/
theorem construct_url_roundtrip :
    (Blockcypher.construct none (.str "livenet") .missing).url
        = (Blockcypher.construct none (.str blockcypherMainUrl) (.str "livenet")).url ∧
    (Blockcypher.construct none (.str "livenet") .missing).url = some blockcypherMainUrl ∧
    (Blockcypher.construct none (.str "testnet") .missing).url
        = (Blockcypher.construct none (.str blockcypherTestUrl) (.str "testnet")).url ∧
    (Blockcypher.construct none (.str "testnet") .missing).url = some blockcypherTestUrl ∧
    (Smoogs.construct (.str "livenet") .missing).url
        = (Smoogs.construct (.str smoogsMainUrl) (.str "livenet")).url ∧
    (Smoogs.construct (.str "livenet") .missing).url = some smoogsMainUrl ∧
    (Smoogs.construct (.str "testnet") .missing).url
        = (Smoogs.construct (.str smoogsTestUrl) (.str "testnet")).url ∧
    (Smoogs.construct (.str "testnet") .missing).url = some smoogsTestUrl := by
  refine ⟨?_, ?_, ?_, ?_, ?_, ?_, ?_, ?_⟩ <;> decide

end BitcoreExplorers
